import Mathlib

/-!
Shallow embedding of `src/src/main.rs` of the `ssh2fwd` repository: a local
TCP listener that forwards each accepted connection through a dedicated
direct-tcpip sub-channel of one authenticated SSH session.

The embedding models the four components that carry the program logic:

* the channel broker `get_channels_for_remote_server` (main.rs lines 42-71),
* the authentication sequence (main.rs lines 103-129),
* the two byte-pump loops `t1` and `t2` (main.rs lines 152-204),
* the accept loop that spawns one task per connection (main.rs lines 133-211).

External effects (what the OS or the SSH peer returns for each read, whether
each write succeeds, whether the channel open is accepted, whether each
authentication attempt succeeds) are supplied as oracle inputs; the
definitions below reproduce exactly how the source reacts to them.
-/

namespace Ssh2fwd

/-- Wrap-around arithmetic of the Rust `i32` type, the type of the stream-id counter
(`Arc<Mutex<i32>>` in main.rs line 136): values live in `[-2^31, 2^31)`. -/
def wrap32 (x : Int) : Int := (x + 2 ^ 31) % 2 ^ 32 - 2 ^ 31

/-- An `ssh2::Stream` endpoint handle, as produced by `c.stream(*stream_id)`
(main.rs lines 56-57): it is identified by the stream id it was derived with. -/
structure Stream where
  stream_id : Int
deriving DecidableEq, Repr

/-- The channel-open request issued by `session.channel_direct_tcpip(host, port,
Some((host, port)))` (main.rs line 54): a target tuple and an originator tuple. -/
structure ChannelOpenRequest where
  target : String × Nat
  originator : String × Nat
deriving DecidableEq, Repr

/-- The one direct-tcpip request the source builds at main.rs line 54: both the
target and the originator are the `(remote_srv, remote_port)` tuple. -/
def directTcpipRequest (remote_srv : String) (remote_port : Nat) : ChannelOpenRequest :=
  { target := (remote_srv, remote_port), originator := (remote_srv, remote_port) }

/-- `get_channels_for_remote_server` (main.rs lines 42-71).  It locks the
stream-id counter, issues one `channel_direct_tcpip` request, and

* on success (`Ok(c)`) derives the writer stream and the reader stream, both
  tagged with the current counter value, then increments the counter and
  returns `Ok((reader_stream, writer_stream))`;
* on failure (`Err(e)`) logs and returns the error, leaving the counter as is.

The oracle `openOk` stands for whether the SSH session accepts the request.
The result is the returned pair (or `none` for `Err`), the counter value after
the call, and the request that was issued. -/
def get_channels_for_remote_server (remote_srv : String) (remote_port : Nat)
    (stream_id : Int) (openOk : Bool) :
    Option (Stream × Stream) × Int × ChannelOpenRequest :=
  let req := directTcpipRequest remote_srv remote_port
  if openOk then
    let writer_stream : Stream := ⟨stream_id⟩
    let reader_stream : Stream := ⟨stream_id⟩
    (some (reader_stream, writer_stream), wrap32 (stream_id + 1), req)
  else
    (none, stream_id, req)

/-- What one `read` call of a pump iteration returns, together with the outcome
of the `write_all` that the loop would perform on the data of that iteration:

* `readOk data writeOk` — the read returned `Ok(data.length)` with `data` in
  the buffer (`data = []` is the `Ok(0)` peer-closed case, where no write is
  attempted and `writeOk` is irrelevant); `writeOk` says whether
  `write_all(&buf[..n])` on the opposite endpoint succeeds;
* `readTimeout` — the read failed with `ErrorKind::TimedOut`;
* `readErr` — the read failed with any other error. -/
inductive IoEvent
  | readOk (data : List Nat) (writeOk : Bool)
  | readTimeout
  | readErr
deriving DecidableEq, Repr

/-- Why the loop of a pump direction ended (`break`), mirroring the three `break`
arms of each loop in main.rs. -/
inductive StopReason
  | peerClosed
  | writeFailed (n : Nat)
  | readError
deriving DecidableEq, Repr

/-- One copy direction of the connection pump: the body of the `loop` shared by
task `t1` (main.rs lines 155-176, reading the local socket and writing the
channel) and task `t2` (main.rs lines 182-203, reading the channel and writing
the local socket).  Given the sequence of I/O outcomes the loop will encounter,
it returns the chunks successfully forwarded, in order, and the reason the loop
ended (`none` when the supplied events are exhausted with the loop still
running):

* `Ok(0)` → log and `break` (peer closed);
* `Ok(n)`, `n > 0` → `write_all(&buf[..n])` on the opposite endpoint; on write
  failure log and `break`, otherwise loop;
* `Err(TimedOut)` → `continue`;
* any other `Err` → log and `break`. -/
def pumpDirection : List IoEvent → List (List Nat) × Option StopReason
  | [] => ([], none)
  | .readOk [] _ :: _ => ([], some .peerClosed)
  | .readOk (b :: d) w :: rest =>
      if w then
        let r := pumpDirection rest
        ((b :: d) :: r.1, r.2)
      else
        ([], some (.writeFailed (b :: d).length))
  | .readTimeout :: rest => pumpDirection rest
  | .readErr :: _ => ([], some .readError)

/-- The local→remote direction, task `t1` (main.rs lines 152-177): reads from
`local_rd`, writes to `txchan`.  Its loop body is `pumpDirection`. -/
def localToRemotePump : List IoEvent → List (List Nat) × Option StopReason :=
  pumpDirection

/-- The remote→local direction, task `t2` (main.rs lines 179-204): reads from
`rxchan`, writes to `local_wr`.  Its loop body is `pumpDirection`. -/
def remoteToLocalPump : List IoEvent → List (List Nat) × Option StopReason :=
  pumpDirection

/-- Whether an I/O outcome makes the loop `break`: a 0-byte read, a failed
write of a non-empty read, or a non-timeout read error. -/
def isTerminating : IoEvent → Bool
  | .readOk [] _ => true
  | .readOk (_ :: _) w => !w
  | .readTimeout => false
  | .readErr => true

/-- The chunk a loop iteration forwards: the data of a successful non-empty
read whose write succeeds. -/
def chunkOf : IoEvent → Option (List Nat)
  | .readOk (b :: d) true => some (b :: d)
  | _ => none

/-- The stop reason produced by a terminating I/O outcome (`none` on the
outcomes that keep the loop running). -/
def reasonOf : IoEvent → Option StopReason
  | .readOk [] _ => some .peerClosed
  | .readOk (b :: d) w => if w then none else some (.writeFailed (b :: d).length)
  | .readTimeout => none
  | .readErr => some .readError

/-- Closed-form characterisation of a pump direction: the forwarded chunks are
exactly the successful non-empty reads before the first terminating outcome,
and the loop stops exactly at the first terminating outcome, with the matching
reason. -/
theorem pumpDirection_eq (evs : List IoEvent) :
    pumpDirection evs =
      ((evs.takeWhile fun e => !isTerminating e).filterMap chunkOf,
        (evs.find? isTerminating).bind reasonOf) := by
  induction evs with
  | nil => rfl
  | cons e rest ih =>
      cases e with
      | readOk data w =>
          cases data with
          | nil => simp [pumpDirection, isTerminating, reasonOf, List.find?]
          | cons b d =>
              cases w with
              | true =>
                  simp [pumpDirection, isTerminating, chunkOf, List.find?, ih]
              | false =>
                  simp [pumpDirection, isTerminating, reasonOf, List.find?]
      | readTimeout =>
          simp [pumpDirection, isTerminating, chunkOf, List.find?, ih]
      | readErr =>
          simp [pumpDirection, isTerminating, reasonOf, List.find?]

/-- Observable steps of the authentication sequence (main.rs lines 103-129):
the single `userauth_agent` attempt, each `userauth_password` attempt, and the
`sleep(Duration::from_millis(1000))` back-off after a failed one. -/
inductive AuthEvent
  | agentAttempt (ok : Bool)
  | pwAttempt (ok : Bool)
  | sleepMs (ms : Nat)
deriving DecidableEq, Repr

/-- The password retry loop (main.rs lines 113-122): while the session is not
authenticated, prompt for a password and attempt it; on `Err` log and sleep
1000 ms, then re-check.  The oracle list gives the outcome of each successive
`userauth_password` call.  The result is the trace of events up to the attempt
that authenticates the session, or `none` when the supplied outcomes run out
with the session still unauthenticated (the loop is still running). -/
def passwordLoop : List Bool → Option (List AuthEvent)
  | [] => none
  | ok :: rest =>
      if ok then
        some [.pwAttempt true]
      else
        (passwordLoop rest).map fun evs => .pwAttempt false :: .sleepMs 1000 :: evs

/-- The full authentication sequence (main.rs lines 103-129): one
`userauth_agent` attempt whose failure is only logged (`warn!`), then, if the
session is still unauthenticated, the password retry loop.  `agentOk` is
whether the agent attempt authenticates the session; `pwOutcomes` feeds
`passwordLoop`.  `some trace` means the sequence finished with the session
authenticated; `none` means it is still inside the retry loop. -/
def authenticate (agentOk : Bool) (pwOutcomes : List Bool) : Option (List AuthEvent) :=
  if agentOk then
    some [.agentAttempt true]
  else
    (passwordLoop pwOutcomes).map fun evs => .agentAttempt false :: evs

/-- Which of the two pump directions an I/O outcome belongs to. -/
inductive Direction
  | localToRemote
  | remoteToLocal
deriving DecidableEq, Repr

/-- Observable steps of one spawned per-connection task (the `tokio::spawn`
body, main.rs lines 140-210): the channel-open request, the two
`set_timeout` calls on the shared session, the I/O outcomes of the two pump
directions, and the panic of the `.unwrap()` on a failed channel open. -/
inductive TaskEvent
  | channelOpenRequest (req : ChannelOpenRequest)
  | setTimeout (ms : Nat)
  | dirEvent (d : Direction) (e : IoEvent)
  | panicked
deriving DecidableEq, Repr

/-- The trace of one spawned per-connection task (main.rs lines 140-210).  The
task calls `get_channels_for_remote_server` on a counter freshly created at 0
for this connection (`Arc::new(Mutex::new(0))` in the loop body, main.rs line
136) and `.unwrap()`s the result:

* if the channel open failed, the `.unwrap()` panics and the task ends there —
  nothing after it runs;
* otherwise the task sets the shared session timeout to 20, spawns the two
  blocking pump tasks `t1` and `t2`, awaits both, and only then sets the
  timeout back to 3000.

`il` is the temporal interleaving of the I/O outcomes of the two directions;
every such outcome happens after both spawns and before both awaits return,
hence between the two `set_timeout` calls. -/
def connectionTask (remote_srv : String) (remote_port : Nat) (openOk : Bool)
    (il : List (Direction × IoEvent)) : List TaskEvent :=
  let stream_counter : Int := 0
  match get_channels_for_remote_server remote_srv remote_port stream_counter openOk with
  | (some _, _, req) =>
      .channelOpenRequest req :: .setTimeout 20 ::
        ((il.map fun p => .dirEvent p.1 p.2) ++ [.setTimeout 3000])
  | (none, _, req) => [.channelOpenRequest req, .panicked]

/-- The accept loop (main.rs lines 133-211): each accepted connection gets a
fresh stream-id counter and a spawned task; the loop never awaits a spawned
task, so it continues accepting regardless of how earlier tasks fared.  Input:
per accepted connection, whether its channel open succeeds and the I/O
outcomes of its two directions.  Output: the trace of the task of each connection,
in accept order. -/
def listenerRun (remote_srv : String) (remote_port : Nat) :
    List (Bool × List (Direction × IoEvent)) → List (List TaskEvent)
  | [] => []
  | (openOk, il) :: rest =>
      connectionTask remote_srv remote_port openOk il :: listenerRun remote_srv remote_port rest

/-- The stream id the channel of each accepted connection is tagged with (`none`
when its channel open fails).  As in the source, the counter is created at 0
inside the accept loop (main.rs line 136), once per accepted connection, and
only then handed to `get_channels_for_remote_server`. -/
def listenerStreamIds (remote_srv : String) (remote_port : Nat) :
    List Bool → List (Option Int)
  | [] => []
  | openOk :: rest =>
      let stream_counter : Int := 0
      let r := get_channels_for_remote_server remote_srv remote_port stream_counter openOk
      (r.1.map fun cs => cs.1.stream_id) :: listenerStreamIds remote_srv remote_port rest

/-- The SSH server address actually connected to (main.rs lines 82-86):
`":22"` is appended when the given address contains no `':'`.  Rust
`str::contains(":")` asks whether some character of the string is `':'`,
written here on the character list of the string so that it evaluates. -/
def mkSshAddr (sshaddress : String) : String :=
  if sshaddress.data.contains ':' then sshaddress else sshaddress ++ ":22"

/-- Whether a task event is the channel-open request. -/
def isOpenRequestEv : TaskEvent → Bool
  | .channelOpenRequest _ => true
  | _ => false

/-- Whether a task event is a `set_timeout` call on the shared session. -/
def isSetTimeoutEv : TaskEvent → Bool
  | .setTimeout _ => true
  | _ => false

theorem filter_isOpenRequestEv_map_dirEvent (il : List (Direction × IoEvent)) :
    ((il.map fun p => TaskEvent.dirEvent p.1 p.2).filter isOpenRequestEv) = [] := by
  induction il with
  | nil => rfl
  | cons p rest ih => simpa [List.filter, isOpenRequestEv] using ih

/-- C1: the claim says the stream ids of N concurrently opened connections are
pairwise distinct.  The code creates the stream-id counter inside the accept
loop (main.rs line 136), once per accepted connection, so every successfully
opened channel is tagged with stream id 0: with two accepted connections whose
channel opens both succeed, both ids are 0 and the list of assigned ids is not
pairwise distinct. -/
theorem c1_stream_ids_collide :
    listenerStreamIds "localhost" 8080 [true, true] = [some 0, some 0] ∧
      (listenerStreamIds "localhost" 8080 [true, true])[0]?
        = (listenerStreamIds "localhost" 8080 [true, true])[1]? :=
  ⟨rfl, by decide⟩

/-- C4: a channel-open failure terminates only the pump of that connection.
The accept loop never awaits a spawned task, so the traces of the other
accepted connections are exactly what they would be without the failure, and
the failed task itself ends immediately after the `.unwrap()` panic, before
running either copy direction. -/
theorem c4_open_failure_is_isolated (remote_srv : String) (remote_port : Nat)
    (pre post : List (Bool × List (Direction × IoEvent)))
    (il : List (Direction × IoEvent)) :
    listenerRun remote_srv remote_port (pre ++ (false, il) :: post)
        = listenerRun remote_srv remote_port pre ++
            connectionTask remote_srv remote_port false il ::
              listenerRun remote_srv remote_port post ∧
      connectionTask remote_srv remote_port false il
        = [.channelOpenRequest (directTcpipRequest remote_srv remote_port), .panicked] := by
  refine ⟨?_, rfl⟩
  induction pre with
  | nil => rfl
  | cons x rest ih =>
      cases x with
      | mk openOk il₀ => simp [listenerRun, ih]

/-- C7: `get_channels_for_remote_server` increments the counter exactly once on
a successful channel open, leaves it unchanged when the open fails, and on
success tags both returned endpoints with the counter value read before the
increment. -/
theorem c7_counter_increment_once (remote_srv : String) (remote_port : Nat)
    (stream_id : Int) :
    get_channels_for_remote_server remote_srv remote_port stream_id true
        = (some (⟨stream_id⟩, ⟨stream_id⟩), wrap32 (stream_id + 1),
            directTcpipRequest remote_srv remote_port) ∧
      get_channels_for_remote_server remote_srv remote_port stream_id false
        = (none, stream_id, directTcpipRequest remote_srv remote_port) :=
  ⟨rfl, rfl⟩

/-- C8: every accepted connection issues exactly one direct-tcpip channel-open
request — whether or not the open succeeds — and that request has both its
target tuple and its originator tuple equal to `(remote host, remote port)`. -/
theorem c8_one_direct_tcpip_request (remote_srv : String) (remote_port : Nat)
    (openOk : Bool) (il : List (Direction × IoEvent)) :
    (connectionTask remote_srv remote_port openOk il).filter isOpenRequestEv
        = [.channelOpenRequest (directTcpipRequest remote_srv remote_port)] ∧
      (connectionTask remote_srv remote_port openOk il).countP isOpenRequestEv = 1 ∧
      (directTcpipRequest remote_srv remote_port).target = (remote_srv, remote_port) ∧
      (directTcpipRequest remote_srv remote_port).originator
        = (remote_srv, remote_port) := by
  have hfilter : (connectionTask remote_srv remote_port openOk il).filter isOpenRequestEv
      = [.channelOpenRequest (directTcpipRequest remote_srv remote_port)] := by
    cases openOk with
    | true =>
        simp [connectionTask, get_channels_for_remote_server, List.filter,
          isOpenRequestEv, List.filter_append, filter_isOpenRequestEv_map_dirEvent]
    | false =>
        simp [connectionTask, get_channels_for_remote_server, List.filter,
          isOpenRequestEv]
  refine ⟨hfilter, ?_, rfl, rfl⟩
  rw [List.countP_eq_length_filter, hfilter]
  rfl

/-- C10: a connection whose channel open fails never touches the shared session
timeout: its task trace contains no `set_timeout` event at all, neither the
lowering to 20 nor the restoration to 3000. -/
theorem c10_failed_open_never_sets_timeout (remote_srv : String) (remote_port : Nat)
    (il : List (Direction × IoEvent)) :
    (connectionTask remote_srv remote_port false il).countP isSetTimeoutEv = 0 := by
  simp [connectionTask, get_channels_for_remote_server, List.countP, List.countP.go,
    isSetTimeoutEv]

/-- C2: a pump direction terminates exactly at the first terminating I/O
outcome — a 0-byte read, a non-timeout read error, or a failed write of the
bytes just read — and in no other case (`find?` is `none`, and the loop still
runs, exactly when no such outcome occurs); the chunks written to the opposite
endpoint are exactly the data of each successful read of n > 0 bytes before
that point, in read order.  Both directions have the same loop body. -/
theorem c2_pump_direction_termination (evs : List IoEvent) :
    localToRemotePump evs =
        ((evs.takeWhile fun e => !isTerminating e).filterMap chunkOf,
          (evs.find? isTerminating).bind reasonOf) ∧
      remoteToLocalPump evs =
        ((evs.takeWhile fun e => !isTerminating e).filterMap chunkOf,
          (evs.find? isTerminating).bind reasonOf) :=
  ⟨pumpDirection_eq evs, pumpDirection_eq evs⟩

theorem pumpDirection_replicate_timeout (k : Nat) (evs : List IoEvent) :
    pumpDirection (List.replicate k .readTimeout ++ evs) = pumpDirection evs := by
  induction k with
  | zero => rfl
  | succ m ih => rw [List.replicate_succ, List.cons_append]; exact ih

/-- C3: a timeout error never ends a pump direction: any number k of
consecutive timeout outcomes is skipped with nothing written and the loop
behaving exactly as it does on the remaining outcomes, and a run of k timeouts
alone leaves the loop still running (no writes, no stop reason), for every k —
the retry is unbounded.  Both directions have the same loop body. -/
theorem c3_timeout_is_retried (k : Nat) (evs : List IoEvent) :
    localToRemotePump (List.replicate k .readTimeout ++ evs) = localToRemotePump evs ∧
      remoteToLocalPump (List.replicate k .readTimeout ++ evs) = remoteToLocalPump evs ∧
      localToRemotePump (List.replicate k .readTimeout) = ([], none) ∧
      remoteToLocalPump (List.replicate k .readTimeout) = ([], none) := by
  have h0 : pumpDirection (List.replicate k .readTimeout) = ([], none) := by
    have := pumpDirection_replicate_timeout k []
    rwa [List.append_nil] at this
  exact ⟨pumpDirection_replicate_timeout k evs, pumpDirection_replicate_timeout k evs,
    h0, h0⟩

theorem passwordLoop_all_failures (n : Nat) :
    passwordLoop (List.replicate n false) = none := by
  induction n with
  | zero => rfl
  | succ m ih => rw [List.replicate_succ]; simp [passwordLoop, ih]

theorem passwordLoop_failures_then_success (n : Nat) (rest : List Bool) :
    passwordLoop (List.replicate n false ++ true :: rest)
      = some ((List.replicate n [AuthEvent.pwAttempt false, .sleepMs 1000]).flatten
          ++ [.pwAttempt true]) := by
  induction n with
  | zero => rfl
  | succ m ih =>
      rw [List.replicate_succ, List.cons_append]
      simp [passwordLoop, ih, List.replicate_succ, List.flatten_cons]

/-- C5: the authentication sequence makes one agent attempt whose failure is
not fatal, then retries password authentication while the session is not
authenticated, sleeping 1000 ms after each failed attempt.  For every finite
number n of failed password attempts followed by a successful one, the
sequence finishes authenticated (`some` trace) with the attempts and back-offs
in order; for every n, n failures alone leave it still looping (`none`) — the
loop exits only on success and the retries are unbounded; a successful agent
attempt authenticates immediately with no password prompt. -/
theorem c5_authentication_retries (n : Nat) (rest : List Bool) :
    authenticate false (List.replicate n false ++ true :: rest)
        = some (.agentAttempt false ::
            ((List.replicate n [AuthEvent.pwAttempt false, .sleepMs 1000]).flatten
              ++ [.pwAttempt true])) ∧
      authenticate false (List.replicate n false) = none ∧
      authenticate true (List.replicate n false) = some [.agentAttempt true] := by
  refine ⟨?_, ?_, rfl⟩
  · simp [authenticate, passwordLoop_failures_then_success]
  · simp [authenticate, passwordLoop_all_failures]

theorem connectionTask_true_eq (remote_srv : String) (remote_port : Nat)
    (il : List (Direction × IoEvent)) :
    connectionTask remote_srv remote_port true il
      = .channelOpenRequest (directTcpipRequest remote_srv remote_port) ::
          .setTimeout 20 ::
            ((il.map fun p => TaskEvent.dirEvent p.1 p.2) ++ [.setTimeout 3000]) :=
  rfl

/-- C6: in the trace of a connection whose channel opens, the shared session
timeout is set to 20 at position 1, before every direction event, and set to
3000 at the last position, after every direction event; these are the only two
timeout writes, so the restoration to 3000 never precedes the end of either
direction. -/
theorem c6_timeout_set_brackets_directions (remote_srv : String) (remote_port : Nat)
    (il : List (Direction × IoEvent)) :
    (connectionTask remote_srv remote_port true il)[1]? = some (.setTimeout 20) ∧
      (connectionTask remote_srv remote_port true il)[il.length + 2]?
        = some (.setTimeout 3000) ∧
      (∀ k d e, (connectionTask remote_srv remote_port true il)[k]?
          = some (.dirEvent d e) → 1 < k ∧ k < il.length + 2) ∧
      (∀ k ms, (connectionTask remote_srv remote_port true il)[k]?
          = some (.setTimeout ms) → k = 1 ∨ k = il.length + 2) := by
  have hlen : (il.map fun p => TaskEvent.dirEvent p.1 p.2).length = il.length := by simp
  rw [connectionTask_true_eq]
  refine ⟨by rw [List.getElem?_cons_succ, List.getElem?_cons_zero], ?_, ?_, ?_⟩
  · rw [List.getElem?_cons_succ, List.getElem?_cons_succ,
      List.getElem?_append_right (by simp)]
    simp [hlen]
  · intro k d e h
    match k with
    | 0 => rw [List.getElem?_cons_zero] at h; simp at h
    | 1 => rw [List.getElem?_cons_succ, List.getElem?_cons_zero] at h; simp at h
    | (m + 2) =>
        rw [List.getElem?_cons_succ, List.getElem?_cons_succ] at h
        refine ⟨by omega, ?_⟩
        by_contra hge
        have hge' : (il.map fun p => TaskEvent.dirEvent p.1 p.2).length ≤ m := by
          rw [hlen]; omega
        rw [List.getElem?_append_right hge'] at h
        cases hmi : m - (il.map fun p => TaskEvent.dirEvent p.1 p.2).length with
        | zero => rw [hmi] at h; simp at h
        | succ j => rw [hmi] at h; simp at h
  · intro k ms h
    match k with
    | 0 => rw [List.getElem?_cons_zero] at h; simp at h
    | 1 => exact Or.inl rfl
    | (m + 2) =>
        rw [List.getElem?_cons_succ, List.getElem?_cons_succ] at h
        rcases Nat.lt_or_ge m (il.map fun p => TaskEvent.dirEvent p.1 p.2).length
          with hlt | hge
        · rw [List.getElem?_append, if_pos hlt, List.getElem?_map] at h
          cases hil : il[m]? with
          | none => rw [hil] at h; simp at h
          | some p => rw [hil] at h; simp at h
        · rw [List.getElem?_append_right hge] at h
          cases hmi : m - (il.map fun p => TaskEvent.dirEvent p.1 p.2).length with
          | zero =>
              refine Or.inr ?_
              rw [hlen] at hmi hge
              omega
          | succ j => rw [hmi] at h; simp at h

/-- Witness for C6 on a concrete run: one direction event, sitting at position
2, strictly between the `set_timeout 20` at position 1 and the
`set_timeout 3000` at position 3. -/
theorem c6_timeout_set_brackets_directions_witness :
    (connectionTask "localhost" 8080 true
        [(Direction.localToRemote, IoEvent.readErr)])[2]?
        = some (.dirEvent .localToRemote .readErr) ∧ 1 < 2 ∧ 2 < 3 :=
  ⟨by decide, (c6_timeout_set_brackets_directions "localhost" 8080
    [(Direction.localToRemote, IoEvent.readErr)]).2.2.1 2 .localToRemote .readErr
      (by decide)⟩

/-- C9: the address connected to is the configured one with `":22"` appended
exactly when it contains no `':'` (no port part), and is the configured one
unchanged otherwise. -/
theorem c9_ssh_addr_default_port (s : String) :
    (s.data.contains ':' = false → mkSshAddr s = s ++ ":22") ∧
      (s.data.contains ':' = true → mkSshAddr s = s) := by
  constructor <;> intro h <;> simp only [mkSshAddr, h] <;> simp

/-- Witness for C9 on concrete addresses: one without a port, one with. -/
theorem c9_ssh_addr_default_port_witness :
    mkSshAddr "example.com" = "example.com" ++ ":22" ∧
      mkSshAddr "127.0.0.1:2222" = "127.0.0.1:2222" :=
  ⟨(c9_ssh_addr_default_port "example.com").1 rfl,
    (c9_ssh_addr_default_port "127.0.0.1:2222").2 rfl⟩

end Ssh2fwd
